import Mathlib

/-!
Verification development for the fire-smoke detection repository.

The definitions below are a shallow embedding of the two source modules:

* `fire_detection.py` — frame ring buffer (`update_frame_buffer`), clip
  window selection (`save_detection_clip`), pending-clip finalization
  (`handle_pending_clips`), the per-frame detection processing
  (`process_detection_results`) and the capture-loop gate block of
  `detect_from_webcam` / `detect_dual_cameras`.
* `database.py` — the firefighter-alert response lifecycle
  (`respond_to_firefighter_alert`, `_update_firefighter_stats`) and the
  station broadcast fan-out (`broadcast_alert_to_station`).

Machine reals (Python floats, SQLite REAL) are modelled as `ℚ`; database
rows are Lean structures mirroring the SQLite schema; raw timestamp
strings are modelled by their parse result (`Timestamp.parsed`, `none`
when `datetime.fromisoformat` would raise).  Video frames are an abstract
type parameter: only their capture timestamps matter to any claim.
-/

/- Rational arithmetic is used to evaluate the model on concrete inputs;
the kernel computes it directly, but the elaborator needs the arithmetic
on `Rat` to be unfoldable for `decide` to accept concrete goals. -/
unseal Rat.add Rat.sub Rat.mul Rat.inv

namespace FireSmoke

/-! ### Settings (constants of `fire_detection.py`) -/

/-- CLIP_BEFORE_SEC = 1.0 (seconds of video kept before a trigger). -/
def CLIP_BEFORE_SEC : ℚ := 1

/-- CLIP_AFTER_SEC = 4.0 (seconds of video kept after a trigger). -/
def CLIP_AFTER_SEC : ℚ := 4

/-- CLIP_DURATION_SEC = CLIP_BEFORE_SEC + CLIP_AFTER_SEC. -/
def CLIP_DURATION_SEC : ℚ := CLIP_BEFORE_SEC + CLIP_AFTER_SEC

/-- CLIP_BUFFER_SEC = CLIP_DURATION_SEC + 2.0, the ring-buffer retention
window. -/
def CLIP_BUFFER_SEC : ℚ := CLIP_DURATION_SEC + 2

/-- FIRE_CONFIDENCE_THRESHOLD = 0.70. -/
def FIRE_CONFIDENCE_THRESHOLD : ℚ := 70 / 100

/-- SMOKE_CONFIDENCE_THRESHOLD = 0.65. -/
def SMOKE_CONFIDENCE_THRESHOLD : ℚ := 65 / 100

/-- Alert-worthy confidence: the literal `0.85` tested at
`if confidence >= 0.85` in `process_detection_results`. -/
def ALERT_CONFIDENCE : ℚ := 85 / 100

/-- Cooldown value assigned by the capture loops
(`detection_cooldown = 300`), counted in gate invocations. -/
def DETECTION_COOLDOWN : ℕ := 300

/-! ### Frame ring buffer (`update_frame_buffer`, lines 70-80)

A buffer entry is a pair `(capture_time, frame)`; the frame content is an
abstract type `α`.  The Python code appends `(now, frame.copy())` and then
pops from the front while the front entry is older than
`now - CLIP_BUFFER_SEC`; popping from the front while a condition holds on
the front element is `List.dropWhile`. -/

/-- One append to a camera frame buffer: append the new sample, then evict
stale entries from the front (`while buf and buf[0][0] < cutoff:
buf.pop(0)`). -/
def update_frame_buffer {α : Type} (buf : List (ℚ × α)) (now : ℚ) (frame : α) :
    List (ℚ × α) :=
  List.dropWhile (fun e => decide (e.1 < now - CLIP_BUFFER_SEC)) (buf ++ [(now, frame)])

/-- Replay a whole sequence of appends, starting from the empty buffer. -/
def run_buffer {α : Type} (apps : List (ℚ × α)) : List (ℚ × α) :=
  apps.foldl (fun b tf => update_frame_buffer b tf.1 tf.2) []

/-- Frame-window selection of `save_detection_clip` (lines 88-93): keep
entries with timestamp in `[trigger - CLIP_BEFORE_SEC, trigger +
CLIP_AFTER_SEC]`, falling back to the whole buffer when that selection is
empty. -/
def clip_window {α : Type} (buf : List (ℚ × α)) (trigger_time : ℚ) :
    List (ℚ × α) :=
  let start_time := trigger_time - CLIP_BEFORE_SEC
  let end_time := trigger_time + CLIP_AFTER_SEC
  let selected := buf.filter (fun e => decide (start_time ≤ e.1) && decide (e.1 ≤ end_time))
  if selected.isEmpty then buf else selected

/-- Entries ordered by capture time. -/
def TimeSorted {α : Type} (l : List (ℚ × α)) : Prop :=
  l.Pairwise (fun x y => x.1 ≤ y.1)

lemma timeSorted_nil {α : Type} : TimeSorted ([] : List (ℚ × α)) :=
  List.Pairwise.nil

lemma dropWhile_stale_ge {α : Type} (c : ℚ) :
    ∀ l : List (ℚ × α), TimeSorted l →
      ∀ e ∈ l.dropWhile (fun e => decide (e.1 < c)), c ≤ e.1 := by
  intro l
  induction l with
  | nil => intro _ e he; simp [List.dropWhile] at he
  | cons a t ih =>
      intro hs e he
      rw [List.dropWhile_cons] at he
      rcases List.pairwise_cons.mp hs with ⟨ha, ht⟩
      by_cases hlt : a.1 < c
      · simp only [decide_eq_true_eq, if_pos hlt] at he
        exact ih ht e he
      · simp only [decide_eq_true_eq, if_neg hlt] at he
        rcases List.mem_cons.mp he with rfl | hmem
        · exact le_of_not_lt hlt
        · exact le_trans (le_of_not_lt hlt) (ha e hmem)

lemma update_frame_buffer_sorted_fresh {α : Type}
    (buf : List (ℚ × α)) (now : ℚ) (frame : α)
    (hs : TimeSorted buf) (hle : ∀ e ∈ buf, e.1 ≤ now) :
    TimeSorted (update_frame_buffer buf now frame) ∧
      ∀ e ∈ update_frame_buffer buf now frame,
        now - CLIP_BUFFER_SEC ≤ e.1 ∧ e.1 ≤ now := by
  have happ : TimeSorted (buf ++ [(now, frame)]) := by
    rw [TimeSorted, List.pairwise_append]
    refine ⟨hs, List.pairwise_singleton _ _, ?_⟩
    intro x hx y hy
    rw [List.mem_singleton] at hy
    subst hy
    exact hle x hx
  constructor
  · exact List.Pairwise.sublist (List.dropWhile_sublist _) happ
  · intro e he
    refine ⟨dropWhile_stale_ge _ _ happ e he, ?_⟩
    have hmem : e ∈ buf ++ [(now, frame)] :=
      (List.dropWhile_sublist _).mem he
    rcases List.mem_append.mp hmem with hb | hlast
    · exact hle e hb
    · rw [List.mem_singleton] at hlast
      subst hlast
      exact le_refl _

lemma run_buffer_concat {α : Type} (apps : List (ℚ × α)) (a : ℚ × α) :
    run_buffer (apps ++ [a]) = update_frame_buffer (run_buffer apps) a.1 a.2 := by
  simp [run_buffer, List.foldl_append]

lemma run_buffer_invariant {α : Type} (apps : List (ℚ × α)) :
    apps.Chain' (fun x y => x.1 ≤ y.1) →
    TimeSorted (run_buffer apps) ∧
      ∀ la ∈ apps.getLast?, ∀ e ∈ run_buffer apps,
        la.1 - CLIP_BUFFER_SEC ≤ e.1 ∧ e.1 ≤ la.1 := by
  induction apps using List.reverseRecOn with
  | nil =>
      intro _
      refine ⟨timeSorted_nil, ?_⟩
      simp [run_buffer]
  | append_singleton l a ih =>
      intro hmono
      rw [List.chain'_append] at hmono
      obtain ⟨hl, -, hlast⟩ := hmono
      obtain ⟨ihs, ihb⟩ := ih hl
      have hle : ∀ e ∈ run_buffer l, e.1 ≤ a.1 := by
        intro e he
        rcases eq_or_ne l [] with rfl | hne
        · simp [run_buffer] at he
        · have hgl : l.getLast? = some (l.getLast hne) := List.getLast?_eq_getLast l hne
          have h1 : e.1 ≤ (l.getLast hne).1 :=
            (ihb (l.getLast hne) (by rw [hgl]; rfl) e he).2
          have h2 : (l.getLast hne).1 ≤ a.1 := by
            refine hlast (l.getLast hne) (by rw [hgl]; rfl) a ?_
            rfl
          exact le_trans h1 h2
      rw [run_buffer_concat]
      obtain ⟨hs', hb'⟩ :=
        update_frame_buffer_sorted_fresh (run_buffer l) a.1 a.2 ihs hle
      refine ⟨hs', ?_⟩
      intro la hla e he
      rw [List.getLast?_concat] at hla
      have : la = a := by
        have h := hla
        simp only [Option.mem_def, Option.some.injEq] at h
        exact h.symm
      subst this
      exact hb' e he

lemma clip_window_sorted {α : Type} (buf : List (ℚ × α)) (trigger_time : ℚ)
    (hs : TimeSorted buf) : TimeSorted (clip_window buf trigger_time) := by
  unfold clip_window
  dsimp only
  split
  · exact hs
  · exact List.Pairwise.sublist (List.filter_sublist _) hs

/-- C7: for every sequence of appends with non-decreasing capture
timestamps, after each append the ring buffer contains only samples within
`CLIP_BUFFER_SEC` of the latest append time, the buffer is ordered by
capture time, and every windowed extraction over the buffer is in
capture-time order. -/
theorem ring_buffer_retention_order {α : Type} (apps : List (ℚ × α))
    (hmono : apps.Chain' (fun x y => x.1 ≤ y.1)) :
    TimeSorted (run_buffer apps) ∧
      (∀ la ∈ apps.getLast?, ∀ e ∈ run_buffer apps,
        la.1 - CLIP_BUFFER_SEC ≤ e.1 ∧ e.1 ≤ la.1) ∧
      ∀ trigger_time : ℚ, TimeSorted (clip_window (run_buffer apps) trigger_time) := by
  obtain ⟨hs, hb⟩ := run_buffer_invariant apps hmono
  exact ⟨hs, hb, fun t => clip_window_sorted _ t hs⟩

/-- Witness for C7 at a concrete append sequence: timestamps 0, 3, 8 with
retention window 7 evict the first sample and keep the buffer ordered. -/
theorem ring_buffer_retention_order_witness :
    ([((0 : ℚ), ()), (3, ()), (8, ())] : List (ℚ × Unit)).Chain'
        (fun x y => x.1 ≤ y.1) ∧
      (TimeSorted (run_buffer [((0 : ℚ), ()), (3, ()), (8, ())]) ∧
        (∀ la ∈ ([((0 : ℚ), ()), (3, ()), (8, ())] : List (ℚ × Unit)).getLast?,
          ∀ e ∈ run_buffer [((0 : ℚ), ()), (3, ()), (8, ())],
            la.1 - CLIP_BUFFER_SEC ≤ e.1 ∧ e.1 ≤ la.1) ∧
        ∀ trigger_time : ℚ,
          TimeSorted (clip_window (run_buffer [((0 : ℚ), ()), (3, ()), (8, ())]) trigger_time)) :=
  ⟨by norm_num [List.chain'_cons, List.chain'_singleton],
   ring_buffer_retention_order _ (by norm_num [List.chain'_cons, List.chain'_singleton])⟩

/-! ### Detection gate (`process_detection_results`, lines 135-216)

A YOLO result box is reduced to its class and confidence.  The Python code
dispatches on whether the class name contains "fire" (first branch),
otherwise "smoke", otherwise ignores the box; `Cls.other` stands for the
last case. -/

/-- Classifier box class after the substring dispatch of lines 151-162. -/
inductive Cls where
  | fire
  | smoke
  | other
  deriving DecidableEq, Repr

/-- One classifier box: class and confidence. -/
structure Box where
  cls : Cls
  conf : ℚ
  deriving DecidableEq, Repr

/-- The `detection_info` dictionary built by `process_detection_results`. -/
structure DetectionInfo where
  has_fire : Bool
  has_smoke : Bool
  max_fire_confidence : ℚ
  max_smoke_confidence : ℚ
  detection_id : Option ℕ
  deriving DecidableEq, Repr

/-- The box-summarizing loop of lines 144-162: per-class presence flags and
per-class maximum confidence, starting from `False`/`0`. -/
def summarize (boxes : List Box) : DetectionInfo :=
  boxes.foldl
    (fun info b =>
      match b.cls with
      | Cls.fire =>
          { info with
            has_fire := true
            max_fire_confidence := max info.max_fire_confidence b.conf }
      | Cls.smoke =>
          { info with
            has_smoke := true
            max_smoke_confidence := max info.max_smoke_confidence b.conf }
      | Cls.other => info)
    ⟨false, false, 0, 0, none⟩

/-- Winning class and confidence (lines 165-170): fire wins ties. -/
def winner (info : DetectionInfo) : Cls × ℚ :=
  if info.max_smoke_confidence ≤ info.max_fire_confidence then
    (Cls.fire, info.max_fire_confidence)
  else
    (Cls.smoke, info.max_smoke_confidence)

/-- A row of the `detections` table (the fields the claims reference). -/
structure Detection where
  id : ℕ
  camera_id : ℕ
  detection_type : Cls
  confidence : ℚ
  deriving DecidableEq, Repr

/-- Alert level written by `create_alert` at line 202. -/
inductive AlertLevel where
  | critical
  | warning
  deriving DecidableEq, Repr

/-- A row of the `alerts` table (the fields the claims reference). -/
structure Alert where
  detection_id : ℕ
  alert_level : AlertLevel
  deriving DecidableEq, Repr

/-- The `PENDING_CLIPS[camera_id]` dictionary value (lines 209-212). -/
structure PendingClip where
  detection_id : ℕ
  trigger_time : ℚ
  deriving DecidableEq, Repr

/-- Persistent state touched by `process_detection_results` for one camera:
the camera's pending-clip slot, the detections and alerts tables, and the
next `AUTOINCREMENT` detection id. -/
structure ProcState where
  pending : Option PendingClip
  detections : List Detection
  alerts : List Alert
  nextId : ℕ
  deriving DecidableEq, Repr

/-- `process_detection_results(results, camera_id, frame, save_image)`
(lines 135-216).  Returns the `detection_info` dictionary and the updated
state.  Image/file writes and the activity log are outside the model. -/
def process_detection_results (boxes : List Box) (camera_id : ℕ)
    (save_image : Bool) (now : ℚ) (st : ProcState) :
    DetectionInfo × ProcState :=
  let info := summarize boxes
  if save_image && (info.has_fire || info.has_smoke) then
    let log_type := (winner info).1
    let confidence := (winner info).2
    let threshold :=
      if log_type = Cls.fire then FIRE_CONFIDENCE_THRESHOLD
      else SMOKE_CONFIDENCE_THRESHOLD
    if threshold ≤ confidence then
      let detection_id := st.nextId
      ({ info with detection_id := some detection_id },
       { pending := some { detection_id := detection_id, trigger_time := now }
         detections := st.detections ++
           [{ id := detection_id, camera_id := camera_id,
              detection_type := log_type, confidence := confidence }]
         alerts :=
           if ALERT_CONFIDENCE ≤ confidence then
             st.alerts ++
               [{ detection_id := detection_id,
                  alert_level :=
                    if log_type = Cls.fire then AlertLevel.critical
                    else AlertLevel.warning }]
           else st.alerts
         nextId := st.nextId + 1 })
    else (info, st)
  else (info, st)

/-! ### Capture-loop gate block (`detect_from_webcam` lines 258-269,
duplicated per camera in `detect_dual_cameras` lines 344-354)

Per gate invocation (every 5th frame) the loop computes
`should_save = (detection_cooldown <= 0)`, calls
`process_detection_results`, resets the cooldown to 300 when a detection
id was produced, and then decrements a positive cooldown by one.  The
cooldown is an `int` that starts at 0, is only ever set to 300 and only
decremented while positive, so it never goes negative and `ℕ` with
`≤ 0 ↔ = 0` models it exactly.  The reset condition
`detection_info.get('detection_id')` is a Python truthiness test; row ids
come from SQLite `AUTOINCREMENT` (`lastrowid`), which never yields 0, so
the test is equivalent to the id being present, modelled by
`Option.isSome`. -/

/-- Per-camera gate state: the cooldown counter plus the stored state. -/
structure GateState where
  detection_cooldown : ℕ
  proc : ProcState
  deriving DecidableEq, Repr

/-- One gate invocation (the `if frame_count % 5 == 0` body, detection
part). -/
def gate_step (camera_id : ℕ) (now : ℚ) (boxes : List Box) (g : GateState) :
    DetectionInfo × GateState :=
  let should_save := decide (g.detection_cooldown ≤ 0)
  let r := process_detection_results boxes camera_id should_save now g.proc
  let c1 := if (r.1.detection_id).isSome then DETECTION_COOLDOWN
            else g.detection_cooldown
  let c2 := if 0 < c1 then c1 - 1 else c1
  (r.1, ⟨c2, r.2⟩)

/-- Gate state after the first `n` gate invocations, where invocation `i`
observes time `(ins i).1` and boxes `(ins i).2`. -/
def gate_run (camera_id : ℕ) (ins : ℕ → ℚ × List Box) :
    ℕ → GateState → GateState
  | 0, g => g
  | n + 1, g => (gate_step camera_id (ins n).1 (ins n).2 (gate_run camera_id ins n g)).2

/-! ### Per-frame capture loop (`detect_from_webcam` lines 243-276)

Each frame iteration appends to the frame buffer, finalizes a due pending
clip (`handle_pending_clips`, lines 122-133), increments `frame_count`,
and runs the gate block on every 5th frame.  Display, key handling and the
periodic live-frame snapshot have no effect on any claim and are omitted.
Frame content is irrelevant here, so buffer entries carry `Unit`. -/

/-- Full per-camera loop state. -/
structure LoopState where
  frame_count : ℕ
  detection_cooldown : ℕ
  buffer : List (ℚ × Unit)
  clips : List (ℕ × ℚ)
  proc : ProcState
  deriving DecidableEq, Repr

/-- `handle_pending_clips` (lines 122-133): once `now` has passed
`trigger_time + CLIP_AFTER_SEC`, `save_detection_clip` runs (it produces a
clip artifact exactly when the buffer is nonempty) and the pending entry
is deleted.  Returns the new pending slot and clip-artifact list, each
artifact recorded as `(detection_id, trigger_time)`. -/
def handle_pending_clips (now : ℚ) (buffer : List (ℚ × Unit))
    (pending : Option PendingClip) (clips : List (ℕ × ℚ)) :
    Option PendingClip × List (ℕ × ℚ) :=
  match pending with
  | none => (none, clips)
  | some p =>
      if p.trigger_time + CLIP_AFTER_SEC ≤ now then
        (none,
         if buffer.isEmpty then clips
         else clips ++ [(p.detection_id, p.trigger_time)])
      else (some p, clips)

/-- One iteration of the `while True` capture loop for one camera, given
the frame's capture time and its classifier output. -/
def webcam_frame_step (camera_id : ℕ) (now : ℚ) (boxes : List Box)
    (st : LoopState) : LoopState :=
  let buffer := update_frame_buffer st.buffer now ()
  let hp := handle_pending_clips now buffer st.proc.pending st.clips
  let proc1 : ProcState := { st.proc with pending := hp.1 }
  let frame_count := st.frame_count + 1
  if frame_count % 5 = 0 then
    let r := gate_step camera_id now boxes ⟨st.detection_cooldown, proc1⟩
    { frame_count := frame_count
      detection_cooldown := (r.2).detection_cooldown
      buffer := buffer
      clips := hp.2
      proc := (r.2).proc }
  else
    { frame_count := frame_count
      detection_cooldown := st.detection_cooldown
      buffer := buffer
      clips := hp.2
      proc := proc1 }

/-- Loop state after the first `n` frames, frame `i` having capture time
`(ins i).1` and classifier output `(ins i).2`. -/
def webcam_run (camera_id : ℕ) (ins : ℕ → ℚ × List Box) :
    ℕ → LoopState → LoopState
  | 0, st => st
  | n + 1, st =>
      webcam_frame_step camera_id (ins n).1 (ins n).2 (webcam_run camera_id ins n st)

/-- Loop state at program start: frame counter and cooldown zero, empty
buffer, no pending clip, empty tables, first `AUTOINCREMENT` id 1. -/
def initLoopState : LoopState :=
  ⟨0, 0, [], [], ⟨none, [], [], 1⟩⟩

/-! ### Basic gate lemmas -/

lemma summarize_detection_id_none (boxes : List Box) :
    (summarize boxes).detection_id = none := by
  suffices h : ∀ acc : DetectionInfo,
      (boxes.foldl
        (fun info b =>
          match b.cls with
          | Cls.fire =>
              { info with
                has_fire := true
                max_fire_confidence := max info.max_fire_confidence b.conf }
          | Cls.smoke =>
              { info with
                has_smoke := true
                max_smoke_confidence := max info.max_smoke_confidence b.conf }
          | Cls.other => info) acc).detection_id = acc.detection_id by
    exact h ⟨false, false, 0, 0, none⟩
  induction boxes with
  | nil => intro acc; rfl
  | cons b t ih =>
      intro acc
      rw [List.foldl_cons, ih]
      cases b.cls <;> rfl

lemma process_save_false (boxes : List Box) (camera_id : ℕ) (now : ℚ)
    (st : ProcState) :
    process_detection_results boxes camera_id false now st =
      (summarize boxes, st) := by
  simp [process_detection_results]

/-- A gate invocation with a positive cooldown counter produces no
detection, leaves the stored state untouched, and decrements the counter
by exactly one. -/
lemma gate_step_pos_cooldown (camera_id : ℕ) (now : ℚ) (boxes : List Box)
    (g : GateState) (h : g.detection_cooldown ≠ 0) :
    gate_step camera_id now boxes g =
      (summarize boxes, ⟨g.detection_cooldown - 1, g.proc⟩) := by
  have hss : decide (g.detection_cooldown ≤ 0) = false := by
    simp [Nat.le_zero, h]
  unfold gate_step
  simp only [hss, process_save_false, summarize_detection_id_none,
    Option.isSome_none, Bool.false_eq_true, if_false]
  simp [Nat.pos_of_ne_zero h]

/-- A gate invocation that produces a detection id leaves the cooldown
counter at 299 (set to 300, then decremented in the same iteration). -/
lemma gate_step_emit_cooldown (camera_id : ℕ) (now : ℚ) (boxes : List Box)
    (g : GateState)
    (h : ((gate_step camera_id now boxes g).1.detection_id).isSome = true) :
    (gate_step camera_id now boxes g).2.detection_cooldown =
      DETECTION_COOLDOWN - 1 := by
  unfold gate_step at h ⊢
  simp only at h ⊢
  rw [h]
  simp [DETECTION_COOLDOWN]

/-- While counting down from 299, each further gate invocation decrements
the cooldown by one and leaves the stored state untouched. -/
lemma gate_run_countdown (camera_id : ℕ) (ins : ℕ → ℚ × List Box)
    (g0 : GateState) (M : ℕ)
    (hM : (gate_run camera_id ins M g0).detection_cooldown = 299) :
    ∀ j, j ≤ 299 →
      (gate_run camera_id ins (M + j) g0).detection_cooldown = 299 - j ∧
        (gate_run camera_id ins (M + j) g0).proc =
          (gate_run camera_id ins M g0).proc := by
  intro j
  induction j with
  | zero => intro _; exact ⟨hM, rfl⟩
  | succ j ih =>
      intro hj
      obtain ⟨hc, hp⟩ := ih (Nat.le_of_succ_le hj)
      have hne : (gate_run camera_id ins (M + j) g0).detection_cooldown ≠ 0 := by
        rw [hc]; omega
      have hstep := gate_step_pos_cooldown camera_id (ins (M + j)).1
        (ins (M + j)).2 (gate_run camera_id ins (M + j) g0) hne
      have hrun : gate_run camera_id ins (M + (j + 1)) g0 =
          (gate_step camera_id (ins (M + j)).1 (ins (M + j)).2
            (gate_run camera_id ins (M + j) g0)).2 := rfl
      rw [hrun, hstep]
      refine ⟨?_, hp⟩
      simp only
      rw [hc]
      omega

/-- C3: after a qualifying detection is emitted at gate invocation `N`,
no new detection row is logged at invocations `N+1 .. N+cooldown-1` even
if the observed confidence exceeds the class threshold; during the
cooldown each gate invocation still returns the raw observation (class
flags and per-class maximum confidences) of its frame. -/
theorem cooldown_suppresses_detections (camera_id : ℕ)
    (ins : ℕ → ℚ × List Box) (g0 : GateState) (N k : ℕ)
    (hemit : ((gate_step camera_id (ins N).1 (ins N).2
        (gate_run camera_id ins N g0)).1.detection_id).isSome = true)
    (hk1 : 1 ≤ k) (hk2 : k ≤ DETECTION_COOLDOWN - 1) :
    (gate_step camera_id (ins (N + k)).1 (ins (N + k)).2
        (gate_run camera_id ins (N + k) g0)).1 = summarize (ins (N + k)).2 ∧
      (gate_step camera_id (ins (N + k)).1 (ins (N + k)).2
        (gate_run camera_id ins (N + k) g0)).1.detection_id = none ∧
      (gate_step camera_id (ins (N + k)).1 (ins (N + k)).2
          (gate_run camera_id ins (N + k) g0)).2.proc.detections =
        (gate_run camera_id ins (N + k) g0).proc.detections := by
  have hD : DETECTION_COOLDOWN = 300 := rfl
  have h1 : (gate_run camera_id ins (N + 1) g0).detection_cooldown = 299 := by
    have hrun : gate_run camera_id ins (N + 1) g0 =
        (gate_step camera_id (ins N).1 (ins N).2
          (gate_run camera_id ins N g0)).2 := rfl
    rw [hrun, gate_step_emit_cooldown camera_id (ins N).1 (ins N).2 _ hemit]
    rfl
  obtain ⟨hc, -⟩ := gate_run_countdown camera_id ins g0 (N + 1) h1 (k - 1)
    (by omega)
  have hkk : N + 1 + (k - 1) = N + k := by omega
  rw [hkk] at hc
  have hne : (gate_run camera_id ins (N + k) g0).detection_cooldown ≠ 0 := by
    rw [hc]; omega
  rw [gate_step_pos_cooldown camera_id (ins (N + k)).1 (ins (N + k)).2 _ hne]
  exact ⟨rfl, summarize_detection_id_none _, rfl⟩

/-- Concrete gate input stream: every frame observes a fire box at
confidence 0.9. -/
def exGateIns : ℕ → ℚ × List Box := fun _ => (0, [⟨Cls.fire, 9 / 10⟩])

/-- Gate state at program start. -/
def exGateInit : GateState := ⟨0, ⟨none, [], [], 1⟩⟩

/-- Witness for C3: a detection is emitted at invocation 0 of the concrete
stream, and invocation 1 returns the raw observation with no new
detection row. -/
theorem cooldown_suppresses_detections_witness :
    (((gate_step 1 (exGateIns 0).1 (exGateIns 0).2
        (gate_run 1 exGateIns 0 exGateInit)).1.detection_id).isSome = true) ∧
      ((gate_step 1 (exGateIns (0 + 1)).1 (exGateIns (0 + 1)).2
          (gate_run 1 exGateIns (0 + 1) exGateInit)).1 =
            summarize (exGateIns (0 + 1)).2 ∧
        (gate_step 1 (exGateIns (0 + 1)).1 (exGateIns (0 + 1)).2
          (gate_run 1 exGateIns (0 + 1) exGateInit)).1.detection_id = none ∧
        (gate_step 1 (exGateIns (0 + 1)).1 (exGateIns (0 + 1)).2
            (gate_run 1 exGateIns (0 + 1) exGateInit)).2.proc.detections =
          (gate_run 1 exGateIns (0 + 1) exGateInit).proc.detections) :=
  ⟨by decide,
   cooldown_suppresses_detections 1 exGateIns exGateInit 0 1 (by decide)
     (by decide) (by decide)⟩

/-- Evaluation of `process_detection_results` when `save_image` is true,
at least one class was observed, and the winning confidence meets its
class threshold: a detection row is logged under the next id, the
pending-clip slot is set to the new detection regardless of its previous
content, and an alert row is added exactly when the confidence also meets
`ALERT_CONFIDENCE`. -/
lemma process_logged (boxes : List Box) (camera_id : ℕ) (now : ℚ)
    (st : ProcState)
    (hobs : ((summarize boxes).has_fire || (summarize boxes).has_smoke) = true)
    (hq : (if (winner (summarize boxes)).1 = Cls.fire then
        FIRE_CONFIDENCE_THRESHOLD else SMOKE_CONFIDENCE_THRESHOLD) ≤
      (winner (summarize boxes)).2) :
    process_detection_results boxes camera_id true now st =
      ({ summarize boxes with detection_id := some st.nextId },
       { pending := some ⟨st.nextId, now⟩
         detections := st.detections ++
           [⟨st.nextId, camera_id, (winner (summarize boxes)).1,
             (winner (summarize boxes)).2⟩]
         alerts :=
           if ALERT_CONFIDENCE ≤ (winner (summarize boxes)).2 then
             st.alerts ++
               [⟨st.nextId,
                 if (winner (summarize boxes)).1 = Cls.fire then
                   AlertLevel.critical
                 else AlertLevel.warning⟩]
           else st.alerts
         nextId := st.nextId + 1 }) := by
  unfold process_detection_results
  simp only [Bool.true_and, hobs, if_true]
  rw [if_pos hq]

/-- A gate invocation with zero cooldown that observes a fire box at or
above the fire threshold (with fire winning) emits a detection id. -/
lemma gate_step_emits (camera_id : ℕ) (now : ℚ) (boxes : List Box)
    (g : GateState) (hc : g.detection_cooldown = 0)
    (hf : (summarize boxes).has_fire = true)
    (hge : (summarize boxes).max_smoke_confidence ≤
      (summarize boxes).max_fire_confidence)
    (hth : FIRE_CONFIDENCE_THRESHOLD ≤ (summarize boxes).max_fire_confidence) :
    ((gate_step camera_id now boxes g).1.detection_id).isSome = true := by
  have hw : winner (summarize boxes) =
      (Cls.fire, (summarize boxes).max_fire_confidence) := by
    unfold winner
    rw [if_pos hge]
  have hobs : ((summarize boxes).has_fire || (summarize boxes).has_smoke) = true := by
    rw [hf, Bool.true_or]
  have hq : (if (winner (summarize boxes)).1 = Cls.fire then
      FIRE_CONFIDENCE_THRESHOLD else SMOKE_CONFIDENCE_THRESHOLD) ≤
        (winner (summarize boxes)).2 := by
    rw [hw]
    simpa using hth
  have hss : decide (g.detection_cooldown ≤ 0) = true := by
    simp [hc]
  unfold gate_step
  simp only [hss, process_logged boxes camera_id now g.proc hobs hq]
  rfl

/-- C10: while the cooldown counter is positive, every gate invocation
decrements it by exactly one regardless of the frame content (any box
list, including none at all); hence after a detection sets the counter at
invocation `N`, the counter is back to zero exactly `DETECTION_COOLDOWN`
gate invocations later and the gate can emit again for any qualifying
observation at invocation `N + DETECTION_COOLDOWN`. -/
theorem cooldown_decrements_each_gate_invocation (camera_id : ℕ)
    (ins : ℕ → ℚ × List Box) (g0 : GateState) (N : ℕ)
    (hemit : ((gate_step camera_id (ins N).1 (ins N).2
        (gate_run camera_id ins N g0)).1.detection_id).isSome = true) :
    (∀ (g : GateState) (now : ℚ) (boxes : List Box),
        g.detection_cooldown ≠ 0 →
          (gate_step camera_id now boxes g).2.detection_cooldown =
            g.detection_cooldown - 1) ∧
      (gate_run camera_id ins (N + DETECTION_COOLDOWN) g0).detection_cooldown = 0 ∧
      ∀ (now : ℚ) (boxes : List Box),
        (summarize boxes).has_fire = true →
        (summarize boxes).max_smoke_confidence ≤
          (summarize boxes).max_fire_confidence →
        FIRE_CONFIDENCE_THRESHOLD ≤ (summarize boxes).max_fire_confidence →
        ((gate_step camera_id now boxes
            (gate_run camera_id ins (N + DETECTION_COOLDOWN) g0)).1.detection_id).isSome
          = true := by
  have h1 : (gate_run camera_id ins (N + 1) g0).detection_cooldown = 299 := by
    have hrun : gate_run camera_id ins (N + 1) g0 =
        (gate_step camera_id (ins N).1 (ins N).2
          (gate_run camera_id ins N g0)).2 := rfl
    rw [hrun, gate_step_emit_cooldown camera_id (ins N).1 (ins N).2 _ hemit]
    rfl
  obtain ⟨hc, -⟩ := gate_run_countdown camera_id ins g0 (N + 1) h1 299 le_rfl
  have hkk : N + 1 + 299 = N + DETECTION_COOLDOWN := by
    have hD : DETECTION_COOLDOWN = 300 := rfl
    omega
  rw [hkk] at hc
  have hc0 : (gate_run camera_id ins (N + DETECTION_COOLDOWN) g0).detection_cooldown = 0 := by
    rw [hc]
  refine ⟨?_, hc0, ?_⟩
  · intro g now boxes hne
    rw [gate_step_pos_cooldown camera_id now boxes g hne]
  · intro now boxes hf hge hth
    exact gate_step_emits camera_id now boxes _ hc0 hf hge hth

/-- Witness for C10: on the concrete stream a detection is emitted at
invocation 0, and the stated consequences hold for that run. -/
theorem cooldown_decrements_each_gate_invocation_witness :
    (((gate_step 1 (exGateIns 0).1 (exGateIns 0).2
        (gate_run 1 exGateIns 0 exGateInit)).1.detection_id).isSome = true) ∧
      ((∀ (g : GateState) (now : ℚ) (boxes : List Box),
          g.detection_cooldown ≠ 0 →
            (gate_step 1 now boxes g).2.detection_cooldown =
              g.detection_cooldown - 1) ∧
        (gate_run 1 exGateIns (0 + DETECTION_COOLDOWN) exGateInit).detection_cooldown = 0 ∧
        ∀ (now : ℚ) (boxes : List Box),
          (summarize boxes).has_fire = true →
          (summarize boxes).max_smoke_confidence ≤
            (summarize boxes).max_fire_confidence →
          FIRE_CONFIDENCE_THRESHOLD ≤ (summarize boxes).max_fire_confidence →
          ((gate_step 1 now boxes
              (gate_run 1 exGateIns (0 + DETECTION_COOLDOWN) exGateInit)).1.detection_id).isSome
            = true) :=
  ⟨by decide,
   cooldown_decrements_each_gate_invocation 1 exGateIns exGateInit 0 (by decide)⟩

/-- C8: for every logged detection, an alert row is created if and only
if the winning confidence meets `ALERT_CONFIDENCE` (0.85), which is
strictly above both logging thresholds; when created, the level is
critical for fire and warning for smoke; below 0.85 the detection is
still logged, with its pending clip set, and (last conjunct) any gate
invocation that logs a detection also arms the cooldown. -/
theorem alert_iff_alert_threshold (boxes : List Box) (camera_id : ℕ)
    (now : ℚ) (st : ProcState)
    (hobs : ((summarize boxes).has_fire || (summarize boxes).has_smoke) = true)
    (hq : (if (winner (summarize boxes)).1 = Cls.fire then
        FIRE_CONFIDENCE_THRESHOLD else SMOKE_CONFIDENCE_THRESHOLD) ≤
      (winner (summarize boxes)).2) :
    FIRE_CONFIDENCE_THRESHOLD < ALERT_CONFIDENCE ∧
      SMOKE_CONFIDENCE_THRESHOLD < FIRE_CONFIDENCE_THRESHOLD ∧
      (process_detection_results boxes camera_id true now st).2.detections =
        st.detections ++
          [⟨st.nextId, camera_id, (winner (summarize boxes)).1,
            (winner (summarize boxes)).2⟩] ∧
      (process_detection_results boxes camera_id true now st).2.pending =
        some ⟨st.nextId, now⟩ ∧
      (ALERT_CONFIDENCE ≤ (winner (summarize boxes)).2 →
        (process_detection_results boxes camera_id true now st).2.alerts =
          st.alerts ++
            [⟨st.nextId,
              if (winner (summarize boxes)).1 = Cls.fire then
                AlertLevel.critical
              else AlertLevel.warning⟩]) ∧
      ((winner (summarize boxes)).2 < ALERT_CONFIDENCE →
        (process_detection_results boxes camera_id true now st).2.alerts =
          st.alerts) ∧
      ∀ (g : GateState) (now2 : ℚ) (boxes2 : List Box),
        ((gate_step camera_id now2 boxes2 g).1.detection_id).isSome = true →
        (gate_step camera_id now2 boxes2 g).2.detection_cooldown =
          DETECTION_COOLDOWN - 1 := by
  rw [process_logged boxes camera_id now st hobs hq]
  refine ⟨by decide, by decide, rfl, rfl, ?_, ?_, ?_⟩
  · intro h
    simp only [if_pos h]
  · intro h
    simp only [if_neg (not_le.mpr h)]
  · intro g now2 boxes2 hsome
    exact gate_step_emit_cooldown camera_id now2 boxes2 g hsome

/-- Concrete boxes for the C8 witness: one fire box at confidence 0.8,
above the fire logging threshold but below the alert threshold. -/
def c8boxes : List Box := [⟨Cls.fire, mkRat 8 10⟩]

/-- Concrete state for the C8 witness. -/
def c8st : ProcState := ⟨none, [], [], 1⟩

/-- Witness for C8: the hypotheses hold for a fire observation at
confidence 0.8, and the theorem applies there. -/
theorem alert_iff_alert_threshold_witness :
    (((summarize c8boxes).has_fire || (summarize c8boxes).has_smoke) = true) ∧
      ((if (winner (summarize c8boxes)).1 = Cls.fire then
          FIRE_CONFIDENCE_THRESHOLD else SMOKE_CONFIDENCE_THRESHOLD) ≤
        (winner (summarize c8boxes)).2) ∧
      ((process_detection_results c8boxes 1 true 5 c8st).2.pending =
          some ⟨1, 5⟩ ∧
        ((winner (summarize c8boxes)).2 < ALERT_CONFIDENCE →
          (process_detection_results c8boxes 1 true 5 c8st).2.alerts =
            c8st.alerts)) :=
  ⟨by decide, by decide,
   (alert_iff_alert_threshold c8boxes 1 5 c8st (by decide) (by decide)).2.2.2.1,
   (alert_iff_alert_threshold c8boxes 1 5 c8st (by decide) (by decide)).2.2.2.2.2.1⟩

/-- C2 amended: the pending-clip write at lines 207-212 is unconditional.
When a qualifying detection is logged, `PENDING_CLIPS[camera_id]` is set
to the new detection id and trigger time whatever the slot held before:
an outstanding pending clip is replaced, not preserved.  The slot is one
dictionary entry per source, so at most one pending clip exists per
source at any time. -/
theorem new_detection_replaces_pending_clip (boxes : List Box)
    (camera_id : ℕ) (now : ℚ) (st : ProcState) (p : PendingClip)
    (_hpend : st.pending = some p)
    (hobs : ((summarize boxes).has_fire || (summarize boxes).has_smoke) = true)
    (hq : (if (winner (summarize boxes)).1 = Cls.fire then
        FIRE_CONFIDENCE_THRESHOLD else SMOKE_CONFIDENCE_THRESHOLD) ≤
      (winner (summarize boxes)).2) :
    (process_detection_results boxes camera_id true now st).2.pending =
        some ⟨st.nextId, now⟩ ∧
      (p.detection_id ≠ st.nextId →
        (process_detection_results boxes camera_id true now st).2.pending ≠
          some p) := by
  rw [process_logged boxes camera_id now st hobs hq]
  refine ⟨rfl, ?_⟩
  intro hne hcontra
  simp only [Option.some.injEq] at hcontra
  exact hne (congrArg PendingClip.detection_id hcontra.symm)

/-- Concrete classifier output: one fire box at confidence 0.9. -/
def fireBoxes : List Box := [⟨Cls.fire, mkRat 9 10⟩]

/-- Concrete state for the C2 amended witness: a pending clip for
detection 1 is outstanding and the next detection id is 5. -/
def c2st : ProcState := ⟨some ⟨1, 0⟩, [⟨1, 1, Cls.fire, mkRat 9 10⟩], [], 5⟩

/-- Witness for the amended C2: with a pending clip for detection 1
outstanding, a newly logged qualifying detection overwrites the slot. -/
theorem new_detection_replaces_pending_clip_witness :
    c2st.pending = some ⟨1, 0⟩ ∧
      (((summarize fireBoxes).has_fire || (summarize fireBoxes).has_smoke) = true) ∧
      ((process_detection_results fireBoxes 1 true 2 c2st).2.pending =
          some ⟨5, 2⟩ ∧
        ((1 : ℕ) ≠ (5 : ℕ) →
          (process_detection_results fireBoxes 1 true 2 c2st).2.pending ≠
            some ⟨1, 0⟩)) :=
  ⟨rfl, by decide,
   new_detection_replaces_pending_clip fireBoxes 1 2 c2st ⟨1, 0⟩ rfl
     (by decide) (by decide)⟩

/-! ### A concrete capture-loop trace refuting the burst claim

The stream below drives the single-camera loop with a fire observation at
confidence 0.9 on every frame, all frames time-stamped 0 (the code places
no lower bound on the capture rate, so the 1505 frames of the trace may
all fall inside the 4-second post-trigger margin).  The first gate
invocation (frame 5) logs detection 1 and sets its pending clip; the
cooldown then expires after 300 further gate invocations while the
pending clip is still outstanding, and the gate invocation at frame 1505
logs detection 2 — overwriting the pending clip of detection 1. -/

/-- Constant frame input of the burst trace. -/
def burstV : ℚ × List Box := (0, fireBoxes)

/-- The burst trace input stream. -/
def burstIns : ℕ → ℚ × List Box := fun _ => burstV

lemma burstIns_shift (a : ℕ) : (fun i => burstIns (a + i)) = burstIns := rfl

lemma webcam_run_add (camera_id : ℕ) (ins : ℕ → ℚ × List Box) (a b : ℕ)
    (st : LoopState) :
    webcam_run camera_id ins (a + b) st =
      webcam_run camera_id (fun i => ins (a + i)) b
        (webcam_run camera_id ins a st) := by
  induction b with
  | zero => rfl
  | succ b ih =>
      show webcam_frame_step camera_id (ins (a + b)).1 (ins (a + b)).2
          (webcam_run camera_id ins (a + b) st) = _
      rw [ih]
      rfl

lemma handle_keep (now : ℚ) (buf : List (ℚ × Unit)) (p : PendingClip)
    (clips : List (ℕ × ℚ)) (hdue : ¬ p.trigger_time + CLIP_AFTER_SEC ≤ now) :
    handle_pending_clips now buf (some p) clips = (some p, clips) := by
  unfold handle_pending_clips
  dsimp only
  rw [if_neg hdue]

lemma set_pending_self (pr : ProcState) : { pr with pending := pr.pending } = pr := rfl

/-- A frame that does not hit the gate cadence only advances the frame
counter and the buffer, provided the pending clip is not yet due. -/
lemma step_nongate (camera_id : ℕ) (now : ℚ) (boxes : List Box)
    (st : LoopState) (p : PendingClip)
    (h5 : (st.frame_count + 1) % 5 ≠ 0)
    (hp : st.proc.pending = some p)
    (hdue : ¬ p.trigger_time + CLIP_AFTER_SEC ≤ now) :
    (webcam_frame_step camera_id now boxes st).frame_count = st.frame_count + 1 ∧
      (webcam_frame_step camera_id now boxes st).detection_cooldown =
        st.detection_cooldown ∧
      (webcam_frame_step camera_id now boxes st).clips = st.clips ∧
      (webcam_frame_step camera_id now boxes st).proc = st.proc := by
  unfold webcam_frame_step
  simp only [hp, handle_keep now _ p st.clips hdue]
  rw [if_neg h5]
  refine ⟨rfl, rfl, rfl, ?_⟩
  show { st.proc with pending := some p } = st.proc
  rw [← hp]

/-- A gate frame under positive cooldown advances the frame counter,
decrements the cooldown, and leaves the stored state untouched, provided
the pending clip is not yet due. -/
lemma step_gate_pos (camera_id : ℕ) (now : ℚ) (boxes : List Box)
    (st : LoopState) (p : PendingClip)
    (h5 : (st.frame_count + 1) % 5 = 0)
    (hcd : st.detection_cooldown ≠ 0)
    (hp : st.proc.pending = some p)
    (hdue : ¬ p.trigger_time + CLIP_AFTER_SEC ≤ now) :
    (webcam_frame_step camera_id now boxes st).frame_count = st.frame_count + 1 ∧
      (webcam_frame_step camera_id now boxes st).detection_cooldown =
        st.detection_cooldown - 1 ∧
      (webcam_frame_step camera_id now boxes st).clips = st.clips ∧
      (webcam_frame_step camera_id now boxes st).proc = st.proc := by
  unfold webcam_frame_step
  simp only [hp, handle_keep now _ p st.clips hdue]
  rw [if_pos h5]
  have hproc1 : ({ st.proc with pending := some p } : ProcState) = st.proc := by
    rw [← hp]
  rw [hproc1]
  rw [gate_step_pos_cooldown camera_id now boxes ⟨st.detection_cooldown, st.proc⟩ hcd]
  exact ⟨rfl, rfl, rfl, rfl⟩

/-- A gate frame with zero cooldown on the burst stream logs a new
detection and overwrites the pending-clip slot with the new detection id,
provided the outstanding pending clip was not yet due. -/
lemma step_gate_emit (camera_id : ℕ) (st : LoopState) (p : PendingClip)
    (h5 : (st.frame_count + 1) % 5 = 0)
    (hcd : st.detection_cooldown = 0)
    (hp : st.proc.pending = some p)
    (hdue : ¬ p.trigger_time + CLIP_AFTER_SEC ≤ 0) :
    (webcam_frame_step camera_id 0 fireBoxes st).proc.pending =
      some ⟨st.proc.nextId, 0⟩ := by
  unfold webcam_frame_step
  simp only [hp, handle_keep 0 _ p st.clips hdue]
  rw [if_pos h5]
  have hproc1 : ({ st.proc with pending := some p } : ProcState) = st.proc := by
    rw [← hp]
  rw [hproc1]
  unfold gate_step
  have hss : decide (st.detection_cooldown ≤ 0) = true := by
    rw [hcd]
    rfl
  simp only [hss,
    process_logged fireBoxes camera_id 0 st.proc (by decide) (by decide)]

/-- Running five frames of the burst stream from a state at a gate
boundary with positive cooldown and an undue pending clip: the frame
counter advances by five, the cooldown drops by one, and clips and
stored state are unchanged. -/
lemma burst_block (st : LoopState) (m : ℕ) (p : PendingClip)
    (hm : st.frame_count = 5 * m)
    (hcd : st.detection_cooldown ≠ 0)
    (hp : st.proc.pending = some p)
    (hdue : ¬ p.trigger_time + CLIP_AFTER_SEC ≤ 0) :
    (webcam_run 1 burstIns 5 st).frame_count = 5 * (m + 1) ∧
      (webcam_run 1 burstIns 5 st).detection_cooldown =
        st.detection_cooldown - 1 ∧
      (webcam_run 1 burstIns 5 st).clips = st.clips ∧
      (webcam_run 1 burstIns 5 st).proc = st.proc := by
  obtain ⟨f1, c1, l1, q1⟩ :=
    step_nongate 1 0 fireBoxes st p (by omega) hp hdue
  obtain ⟨f2, c2, l2, q2⟩ :=
    step_nongate 1 0 fireBoxes (webcam_frame_step 1 0 fireBoxes st) p
      (by omega) (by rw [q1]; exact hp) hdue
  obtain ⟨f3, c3, l3, q3⟩ :=
    step_nongate 1 0 fireBoxes
      (webcam_frame_step 1 0 fireBoxes (webcam_frame_step 1 0 fireBoxes st)) p
      (by omega) (by rw [q2, q1]; exact hp) hdue
  obtain ⟨f4, c4, l4, q4⟩ :=
    step_nongate 1 0 fireBoxes
      (webcam_frame_step 1 0 fireBoxes
        (webcam_frame_step 1 0 fireBoxes (webcam_frame_step 1 0 fireBoxes st))) p
      (by omega) (by rw [q3, q2, q1]; exact hp) hdue
  obtain ⟨f5, c5, l5, q5⟩ :=
    step_gate_pos 1 0 fireBoxes
      (webcam_frame_step 1 0 fireBoxes
        (webcam_frame_step 1 0 fireBoxes
          (webcam_frame_step 1 0 fireBoxes
            (webcam_frame_step 1 0 fireBoxes st)))) p
      (by omega) (by omega) (by rw [q4, q3, q2, q1]; exact hp) hdue
  have hrun : webcam_run 1 burstIns 5 st =
      webcam_frame_step 1 0 fireBoxes
        (webcam_frame_step 1 0 fireBoxes
          (webcam_frame_step 1 0 fireBoxes
            (webcam_frame_step 1 0 fireBoxes
              (webcam_frame_step 1 0 fireBoxes st)))) := rfl
  rw [hrun]
  refine ⟨by omega, ?_, ?_, ?_⟩
  · rw [c5, c4, c3, c2, c1]
  · rw [l5, l4, l3, l2, l1]
  · rw [q5, q4, q3, q2, q1]

/-- Stored state right after the first gate invocation of the burst
trace: detection 1 logged with confidence 0.9, its critical alert, and
its pending clip triggered at time 0. -/
def burstProc1 : ProcState :=
  ⟨some ⟨1, 0⟩, [⟨1, 1, Cls.fire, mkRat 9 10⟩], [⟨1, AlertLevel.critical⟩], 2⟩

/-- After `5 + 5 j` frames of the burst trace (`j ≤ 299`), the cooldown
is `299 - j`, no clip has been finalized, and the stored state is still
that of detection 1 — in particular its pending clip is outstanding. -/
lemma burst_countdown :
    ∀ j, j ≤ 299 →
      (webcam_run 1 burstIns (5 + 5 * j) initLoopState).frame_count = 5 + 5 * j ∧
        (webcam_run 1 burstIns (5 + 5 * j) initLoopState).detection_cooldown = 299 - j ∧
        (webcam_run 1 burstIns (5 + 5 * j) initLoopState).clips = [] ∧
        (webcam_run 1 burstIns (5 + 5 * j) initLoopState).proc = burstProc1 := by
  intro j
  induction j with
  | zero =>
      intro _
      exact ⟨by decide, by decide, by decide, by decide⟩
  | succ j ih =>
      intro hj
      obtain ⟨f, c, l, q⟩ := ih (by omega)
      have hsplit : 5 + 5 * (j + 1) = 5 + 5 * j + 5 := by ring
      rw [hsplit, webcam_run_add 1 burstIns (5 + 5 * j) 5 initLoopState,
        burstIns_shift]
      have hm : (webcam_run 1 burstIns (5 + 5 * j) initLoopState).frame_count =
          5 * (1 + j) := by
        rw [f]; ring
      have hcd : (webcam_run 1 burstIns (5 + 5 * j) initLoopState).detection_cooldown ≠ 0 := by
        omega
      have hp : (webcam_run 1 burstIns (5 + 5 * j) initLoopState).proc.pending =
          some ⟨1, 0⟩ := by
        rw [q]; rfl
      obtain ⟨f5, c5, l5, q5⟩ :=
        burst_block _ (1 + j) ⟨1, 0⟩ hm hcd hp (by decide)
      refine ⟨by omega, by omega, ?_, ?_⟩
      · rw [l5, l]
      · rw [q5, q]

/-- C2 counterexample: on the burst trace, the pending clip of detection
1 (trigger time 0) is still outstanding after frame 1504, yet frame 1505
— a qualifying detection while that pending clip exists — leaves the
slot holding detection 2 instead: the existing `PendingClip` is not left
unchanged, and the eventual clip belongs to the last detection of the
burst, not the first. -/
theorem pending_clip_overwritten_in_loop :
    (webcam_run 1 burstIns 1504 initLoopState).proc.pending =
        some ⟨1, 0⟩ ∧
      (webcam_run 1 burstIns 1505 initLoopState).proc.pending =
        some ⟨2, 0⟩ := by
  obtain ⟨f, c, l, q⟩ := burst_countdown 299 le_rfl
  have h1500 : (5 + 5 * 299 : ℕ) = 1500 := by norm_num
  rw [h1500] at f c l q
  have e1 : webcam_run 1 burstIns 1501 initLoopState =
      webcam_frame_step 1 0 fireBoxes (webcam_run 1 burstIns 1500 initLoopState) := rfl
  have e2 : webcam_run 1 burstIns 1502 initLoopState =
      webcam_frame_step 1 0 fireBoxes (webcam_run 1 burstIns 1501 initLoopState) := rfl
  have e3 : webcam_run 1 burstIns 1503 initLoopState =
      webcam_frame_step 1 0 fireBoxes (webcam_run 1 burstIns 1502 initLoopState) := rfl
  have e4 : webcam_run 1 burstIns 1504 initLoopState =
      webcam_frame_step 1 0 fireBoxes (webcam_run 1 burstIns 1503 initLoopState) := rfl
  have e5 : webcam_run 1 burstIns 1505 initLoopState =
      webcam_frame_step 1 0 fireBoxes (webcam_run 1 burstIns 1504 initLoopState) := rfl
  obtain ⟨f1, c1, l1, q1⟩ :=
    step_nongate 1 0 fireBoxes (webcam_run 1 burstIns 1500 initLoopState)
      ⟨1, 0⟩ (by omega) (by rw [q]; rfl) (by decide)
  have F1 : (webcam_run 1 burstIns 1501 initLoopState).frame_count = 1501 := by
    rw [e1, f1, f]
  have C1 : (webcam_run 1 burstIns 1501 initLoopState).detection_cooldown = 0 := by
    rw [e1, c1]; omega
  have Q1 : (webcam_run 1 burstIns 1501 initLoopState).proc = burstProc1 := by
    rw [e1, q1, q]
  obtain ⟨f2, c2, l2, q2⟩ :=
    step_nongate 1 0 fireBoxes (webcam_run 1 burstIns 1501 initLoopState)
      ⟨1, 0⟩ (by omega) (by rw [Q1]; rfl) (by decide)
  have F2 : (webcam_run 1 burstIns 1502 initLoopState).frame_count = 1502 := by
    rw [e2, f2, F1]
  have C2 : (webcam_run 1 burstIns 1502 initLoopState).detection_cooldown = 0 := by
    rw [e2, c2, C1]
  have Q2 : (webcam_run 1 burstIns 1502 initLoopState).proc = burstProc1 := by
    rw [e2, q2, Q1]
  obtain ⟨f3, c3, l3, q3⟩ :=
    step_nongate 1 0 fireBoxes (webcam_run 1 burstIns 1502 initLoopState)
      ⟨1, 0⟩ (by omega) (by rw [Q2]; rfl) (by decide)
  have F3 : (webcam_run 1 burstIns 1503 initLoopState).frame_count = 1503 := by
    rw [e3, f3, F2]
  have C3 : (webcam_run 1 burstIns 1503 initLoopState).detection_cooldown = 0 := by
    rw [e3, c3, C2]
  have Q3 : (webcam_run 1 burstIns 1503 initLoopState).proc = burstProc1 := by
    rw [e3, q3, Q2]
  obtain ⟨f4, c4, l4, q4⟩ :=
    step_nongate 1 0 fireBoxes (webcam_run 1 burstIns 1503 initLoopState)
      ⟨1, 0⟩ (by omega) (by rw [Q3]; rfl) (by decide)
  have F4 : (webcam_run 1 burstIns 1504 initLoopState).frame_count = 1504 := by
    rw [e4, f4, F3]
  have C4 : (webcam_run 1 burstIns 1504 initLoopState).detection_cooldown = 0 := by
    rw [e4, c4, C3]
  have Q4 : (webcam_run 1 burstIns 1504 initLoopState).proc = burstProc1 := by
    rw [e4, q4, Q3]
  constructor
  · rw [Q4]; rfl
  · have hemit := step_gate_emit 1 (webcam_run 1 burstIns 1504 initLoopState)
      ⟨1, 0⟩ (by omega) C4 (by rw [Q4]; rfl) (by decide)
    rw [e5, hemit, Q4]
    rfl

/-! ### Response lifecycle and stats (`database.py`)

Raw timestamps are TEXT columns; all the claims need of them is whether
`datetime.fromisoformat` succeeds and, when it does on both ends, the
difference in seconds.  A timestamp is therefore modelled by its parse
result: `parsed = none` stands for a malformed string. -/

/-- A raw timestamp string, represented by its parse outcome (seconds
since an arbitrary epoch, `none` when parsing would raise). -/
structure Timestamp where
  parsed : Option ℚ
  deriving DecidableEq, Repr

/-- The latency computation of `_update_firefighter_stats` (lines
671-677): `(responded - received).total_seconds()` inside `try`, with the
bare `except` defaulting to 0 when either timestamp fails to parse. -/
def response_time_seconds (received_at responded_at : Timestamp) : ℚ :=
  match received_at.parsed, responded_at.parsed with
  | some r, some s => s - r
  | some _, none => 0
  | none, _ => 0

/-- A row of the `firefighter_alerts` table. -/
structure FirefighterAlert where
  id : ℕ
  alert_id : ℕ
  detection_id : ℕ
  firefighter_id : ℕ
  station_id : ℕ
  alert_type : String
  location : String
  area : String
  confidence : ℚ
  status : String
  response_type : Option String
  received_at : Timestamp
  responded_at : Option Timestamp
  deriving DecidableEq, Repr

/-- A row of the `firefighter_stats` table. -/
structure FirefighterStats where
  firefighter_id : ℕ
  total_responded : ℕ
  total_acknowledged : ℕ
  total_alerts_today : ℕ
  avg_response_time_seconds : ℚ
  last_response_at : Option Timestamp
  stats_date : String
  deriving DecidableEq, Repr

/-- A `firefighter_stats` row freshly created by the `INSERT OR IGNORE`
at lines 680-683: all counters at their schema defaults. -/
def zero_stats_row (firefighter_id : ℕ) (today : String) : FirefighterStats :=
  ⟨firefighter_id, 0, 0, 0, 0, none, today⟩

/-- The two `UPDATE firefighter_stats` statements of
`_update_firefighter_stats` (lines 686-702), applied to one row.  SQL
evaluates every right-hand side against the old row, so the new average
uses the old `total_responded`.  Any `response_type` other than
`'responded'` takes the `else` branch. -/
def update_stats_row (response_type : String) (response_time : ℚ)
    (responded_at : Timestamp) (s : FirefighterStats) : FirefighterStats :=
  if response_type = "responded" then
    { s with
      total_responded := s.total_responded + 1
      total_alerts_today := s.total_alerts_today + 1
      avg_response_time_seconds :=
        (s.avg_response_time_seconds * s.total_responded + response_time) /
          (s.total_responded + 1)
      last_response_at := some responded_at }
  else
    { s with
      total_acknowledged := s.total_acknowledged + 1
      total_alerts_today := s.total_alerts_today + 1
      last_response_at := some responded_at }

/-- `INSERT OR IGNORE INTO firefighter_stats` (lines 680-683):
create the row with default counters unless one already exists for this
firefighter (`firefighter_id` is UNIQUE). -/
def ensure_stats_row (rows : List FirefighterStats) (firefighter_id : ℕ)
    (today : String) : List FirefighterStats :=
  if rows.any (fun s => s.firefighter_id == firefighter_id) then rows
  else rows ++ [zero_stats_row firefighter_id today]

/-- `_update_firefighter_stats` (lines 667-702) over the stats table. -/
def update_firefighter_stats (rows : List FirefighterStats)
    (firefighter_id : ℕ) (response_type : String)
    (received_at responded_at : Timestamp) (today : String) :
    List FirefighterStats :=
  let rows1 := ensure_stats_row rows firefighter_id today
  rows1.map (fun s =>
    if s.firefighter_id = firefighter_id then
      update_stats_row response_type
        (response_time_seconds received_at responded_at) responded_at s
    else s)

/-- The database slice touched by `respond_to_firefighter_alert`. -/
structure FFDb where
  firefighter_alerts : List FirefighterAlert
  firefighter_stats : List FirefighterStats
  deriving DecidableEq, Repr

/-- `respond_to_firefighter_alert(alert_id, response_type)` (lines
648-665): the UPDATE has no status condition — it matches on `id` alone —
and the subsequent SELECT drives the stats update whenever a row with
that id exists, whatever its previous status. -/
def respond_to_firefighter_alert (alert_id : ℕ) (response_type : String)
    (now : Timestamp) (today : String) (db : FFDb) : FFDb :=
  let falerts := db.firefighter_alerts.map (fun a =>
    if a.id = alert_id then
      { a with
        status := response_type
        response_type := some response_type
        responded_at := some now }
    else a)
  match falerts.find? (fun a => a.id == alert_id) with
  | some row =>
      { firefighter_alerts := falerts
        firefighter_stats :=
          update_firefighter_stats db.firefighter_stats row.firefighter_id
            response_type row.received_at now today }
  | none =>
      { firefighter_alerts := falerts
        firefighter_stats := db.firefighter_stats }

/-- A row of the `firefighters` table. -/
structure Firefighter where
  id : ℕ
  name : String
  phone : String
  station : ℕ
  status : String
  deriving DecidableEq, Repr

/-- The fan-out insert loop of `broadcast_alert_to_station` (lines
752-758): one `firefighter_alerts` row per selected firefighter, with
consecutive `AUTOINCREMENT` row ids. -/
def broadcast_rows (alert_id detection_id station_id : ℕ)
    (alert_type location area : String) (confidence : ℚ)
    (received : Timestamp) : ℕ → List Firefighter → List FirefighterAlert
  | _, [] => []
  | rowId, f :: fs =>
      { id := rowId
        alert_id := alert_id
        detection_id := detection_id
        firefighter_id := f.id
        station_id := station_id
        alert_type := alert_type
        location := location
        area := area
        confidence := confidence
        status := "pending"
        response_type := none
        received_at := received
        responded_at := none } ::
        broadcast_rows alert_id detection_id station_id alert_type location
          area confidence received (rowId + 1) fs

/-- `broadcast_alert_to_station` (lines 740-761): select the firefighters
of the station that are currently `'online'` and insert one pending
`firefighter_alerts` row for each. -/
def broadcast_alert_to_station (ffs : List Firefighter)
    (station_id alert_id detection_id : ℕ)
    (alert_type location area : String) (confidence : ℚ)
    (received : Timestamp) (nextRowId : ℕ) : List FirefighterAlert :=
  broadcast_rows alert_id detection_id station_id alert_type location area
    confidence received nextRowId
    (ffs.filter (fun f => f.station == station_id && f.status == "online"))

/-- C4: a `responded` call updates a stats row by the incremental mean
over the old `total_responded` and increments `total_responded`; three
such calls on a fresh (all-zero) row with latencies 10, 20 and 30 seconds
leave an average of 20.0 and `total_responded = 3`. -/
theorem responded_incremental_mean (s : FirefighterStats) (lat : ℚ)
    (ts : Timestamp) :
    (update_stats_row "responded" lat ts s).avg_response_time_seconds =
        (s.avg_response_time_seconds * s.total_responded + lat) /
          (s.total_responded + 1) ∧
      (update_stats_row "responded" lat ts s).total_responded =
        s.total_responded + 1 ∧
      update_firefighter_stats
          (update_firefighter_stats
            (update_firefighter_stats [] 7 "responded" ⟨some 0⟩ ⟨some 10⟩ "d")
            7 "responded" ⟨some 0⟩ ⟨some 20⟩ "d")
          7 "responded" ⟨some 0⟩ ⟨some 30⟩ "d" =
        [⟨7, 3, 0, 3, 20, some ⟨some 30⟩, "d"⟩] := by
  refine ⟨?_, ?_, by decide⟩
  · unfold update_stats_row
    rw [if_pos rfl]
  · unfold update_stats_row
    rw [if_pos rfl]

/-- Stats row used by the C5 counterexample: two responses already
recorded, `last_response_at` empty. -/
def c5row : FirefighterStats := ⟨7, 2, 1, 3, 50, none, "d"⟩

/-- C5 counterexample: the `acknowledged` branch also writes
`last_response_at` (line 700), so that field is not left unchanged. -/
theorem acknowledged_changes_last_response_at :
    (update_stats_row "acknowledged" 0 ⟨some 99⟩ c5row).last_response_at ≠
      c5row.last_response_at := by
  decide

/-- C5 amended: an `acknowledged` call increments `total_acknowledged`
and `total_alerts_today` and sets `last_response_at` to the response
timestamp; `avg_response_time_seconds`, `total_responded` and every other
field are unchanged. -/
theorem acknowledged_frame_effect (s : FirefighterStats) (rt_time : ℚ)
    (ts : Timestamp) :
    update_stats_row "acknowledged" rt_time ts s =
        { s with
          total_acknowledged := s.total_acknowledged + 1
          total_alerts_today := s.total_alerts_today + 1
          last_response_at := some ts } ∧
      (update_stats_row "acknowledged" rt_time ts s).avg_response_time_seconds =
        s.avg_response_time_seconds ∧
      (update_stats_row "acknowledged" rt_time ts s).total_responded =
        s.total_responded := by
  unfold update_stats_row
  rw [if_neg (by decide)]
  exact ⟨rfl, rfl, rfl⟩

/-- C9: when either timestamp of the latency pair is unparsable, the
computed latency is zero and the `responded` stats update still goes
through, with counters incremented and the average absorbing a zero
contribution. -/
theorem unparsable_timestamp_soft_failure (received responded : Timestamp)
    (h : received.parsed = none ∨ responded.parsed = none) :
    response_time_seconds received responded = 0 ∧
      ∀ s : FirefighterStats,
        update_stats_row "responded"
            (response_time_seconds received responded) responded s =
          { s with
            total_responded := s.total_responded + 1
            total_alerts_today := s.total_alerts_today + 1
            avg_response_time_seconds :=
              (s.avg_response_time_seconds * s.total_responded + 0) /
                (s.total_responded + 1)
            last_response_at := some responded } := by
  have h0 : response_time_seconds received responded = 0 := by
    unfold response_time_seconds
    rcases h with h | h
    · rw [h]
    · rw [h]
      cases received.parsed <;> rfl
  refine ⟨h0, ?_⟩
  intro s
  rw [h0]
  unfold update_stats_row
  rw [if_pos rfl]

/-- Witness for C9: a malformed `received_at` together with a parsable
`responded_at`. -/
theorem unparsable_timestamp_soft_failure_witness :
    ((⟨none⟩ : Timestamp).parsed = none ∨
        (⟨some 5⟩ : Timestamp).parsed = none) ∧
      (response_time_seconds ⟨none⟩ ⟨some 5⟩ = 0 ∧
        ∀ s : FirefighterStats,
          update_stats_row "responded"
              (response_time_seconds ⟨none⟩ ⟨some 5⟩) ⟨some 5⟩ s =
            { s with
              total_responded := s.total_responded + 1
              total_alerts_today := s.total_alerts_today + 1
              avg_response_time_seconds :=
                (s.avg_response_time_seconds * s.total_responded + 0) /
                  (s.total_responded + 1)
              last_response_at := some ⟨some 5⟩ }) :=
  ⟨Or.inl rfl, unparsable_timestamp_soft_failure ⟨none⟩ ⟨some 5⟩ (Or.inl rfl)⟩

lemma broadcast_rows_map_firefighter_id (alert_id detection_id station_id : ℕ)
    (alert_type location area : String) (confidence : ℚ)
    (received : Timestamp) :
    ∀ (rowId : ℕ) (l : List Firefighter),
      (broadcast_rows alert_id detection_id station_id alert_type location
          area confidence received rowId l).map (fun r => r.firefighter_id) =
        l.map (fun f => f.id) := by
  intro rowId l
  induction l generalizing rowId with
  | nil => rfl
  | cons f fs ih =>
      unfold broadcast_rows
      rw [List.map_cons, List.map_cons, ih]

lemma broadcast_rows_fields (alert_id detection_id station_id : ℕ)
    (alert_type location area : String) (confidence : ℚ)
    (received : Timestamp) :
    ∀ (rowId : ℕ) (l : List Firefighter),
      ∀ r ∈ broadcast_rows alert_id detection_id station_id alert_type
          location area confidence received rowId l,
        r.status = "pending" ∧ r.alert_id = alert_id ∧
          r.detection_id = detection_id ∧ r.station_id = station_id := by
  intro rowId l
  induction l generalizing rowId with
  | nil => intro r hr; simp [broadcast_rows] at hr
  | cons f fs ih =>
      intro r hr
      unfold broadcast_rows at hr
      rcases List.mem_cons.mp hr with rfl | hmem
      · exact ⟨rfl, rfl, rfl, rfl⟩
      · exact ih (rowId + 1) r hmem

/-- Roster for the C6 station-broadcast instance: station 1 has three
online firefighters and one offline; a fifth firefighter is online at
station 2. -/
def exRoster : List Firefighter :=
  [⟨1, "a", "p", 1, "online"⟩, ⟨2, "b", "p", 1, "online"⟩,
   ⟨3, "c", "p", 1, "online"⟩, ⟨4, "d", "p", 1, "offline"⟩,
   ⟨5, "e", "p", 2, "online"⟩]

/-- C6: broadcasting to a station creates exactly one row per firefighter
of that station whose status is online (in roster order, so one row each
and none for anyone else), every row pending and referencing the same
alert and detection; for a station with three online and one offline
firefighter, exactly three rows result. -/
theorem broadcast_one_pending_row_per_online_responder
    (ffs : List Firefighter) (station_id alert_id detection_id : ℕ)
    (alert_type location area : String) (confidence : ℚ)
    (received : Timestamp) (nextRowId : ℕ) :
    (broadcast_alert_to_station ffs station_id alert_id detection_id
          alert_type location area confidence received nextRowId).map
        (fun r => r.firefighter_id) =
      (ffs.filter (fun f => f.station == station_id &&
        f.status == "online")).map (fun f => f.id) ∧
      (∀ r ∈ broadcast_alert_to_station ffs station_id alert_id detection_id
          alert_type location area confidence received nextRowId,
        r.status = "pending" ∧ r.alert_id = alert_id ∧
          r.detection_id = detection_id ∧ r.station_id = station_id) ∧
      (broadcast_alert_to_station exRoster 1 10 20 "fire" "Building A"
        "Warehouse" (mkRat 9 10) ⟨some 0⟩ 1).length = 3 := by
  refine ⟨?_, ?_, by decide⟩
  · exact broadcast_rows_map_firefighter_id alert_id detection_id station_id
      alert_type location area confidence received nextRowId _
  · exact broadcast_rows_fields alert_id detection_id station_id
      alert_type location area confidence received nextRowId _

/-- The `total_alerts_today` counter is incremented by both branches of
the stats update. -/
lemma update_stats_row_alerts_today (response_type : String)
    (response_time : ℚ) (responded_at : Timestamp) (s : FirefighterStats) :
    (update_stats_row response_type response_time responded_at s).total_alerts_today =
      s.total_alerts_today + 1 := by
  unfold update_stats_row
  split <;> rfl

/-- An already-`responded` `firefighter_alerts` row, for the C1
counterexample: firefighter 7 responded at time 100 with latency 100. -/
def c1alert : FirefighterAlert :=
  ⟨1, 1, 1, 7, 1, "fire", "Building A", "Warehouse", mkRat 9 10,
   "responded", some "responded", ⟨some 0⟩, some ⟨some 100⟩⟩

/-- The matching stats row after that first response. -/
def c1stats : FirefighterStats := ⟨7, 1, 0, 1, 100, some ⟨some 100⟩, "d"⟩

/-- Database for the C1 counterexample. -/
def c1db : FFDb := ⟨[c1alert], [c1stats]⟩

/-- C1 counterexample: responding again to record 1, which is already in
status `responded`, overwrites the record (its table row changes) and
mutates the stats a second time (`total_responded` goes from 1 to 2),
instead of failing with `NotFound` and leaving both untouched. -/
theorem respond_overwrites_responded_record :
    c1alert.status = "responded" ∧
      (respond_to_firefighter_alert 1 "responded" ⟨some 200⟩ "d"
          c1db).firefighter_alerts ≠ c1db.firefighter_alerts ∧
      (respond_to_firefighter_alert 1 "responded" ⟨some 200⟩ "d"
          c1db).firefighter_stats.map (fun s => s.total_responded) = [2] ∧
      c1db.firefighter_stats.map (fun s => s.total_responded) = [1] := by
  decide

/-- C1 amended: `respond_to_firefighter_alert` performs no status check
and raises no error.  An id matching no record is a silent no-op (records
and stats unchanged, nothing raised); an id matching a record of any
status — pending or already resolved — overwrites the record's status,
`response_type` and `responded_at` and runs the stats update again. -/
theorem respond_lacks_status_guard (db : FFDb) (alert_id : ℕ) (rt : String)
    (now : Timestamp) (today : String) :
    ((∀ a ∈ db.firefighter_alerts, a.id ≠ alert_id) →
        respond_to_firefighter_alert alert_id rt now today db = db) ∧
      ∀ a s, db = ⟨[a], [s]⟩ → a.id = alert_id →
        s.firefighter_id = a.firefighter_id →
        (respond_to_firefighter_alert alert_id rt now today db).firefighter_alerts =
            [{ a with
                status := rt
                response_type := some rt
                responded_at := some now }] ∧
          (respond_to_firefighter_alert alert_id rt now today
              db).firefighter_stats.map (fun t => t.total_alerts_today) =
            [s.total_alerts_today + 1] := by
  constructor
  · intro habs
    have hmap : (db.firefighter_alerts.map fun a =>
        if a.id = alert_id then
          { a with
            status := rt
            response_type := some rt
            responded_at := some now }
        else a) = db.firefighter_alerts := by
      have hcongr := List.map_congr_left (l := db.firefighter_alerts)
        (g := id) (f := fun a =>
          if a.id = alert_id then
            { a with
              status := rt
              response_type := some rt
              responded_at := some now }
          else a)
        (fun a ha => by simp [habs a ha])
      rw [hcongr, List.map_id]
    have hfind : (db.firefighter_alerts.find? fun a => a.id == alert_id) = none := by
      rw [List.find?_eq_none]
      intro a ha
      simp only [beq_iff_eq]
      exact habs a ha
    unfold respond_to_firefighter_alert
    simp only [hmap, hfind]
  · intro a s hdb hid hff
    subst hdb
    unfold respond_to_firefighter_alert
    simp only [List.map_cons, List.map_nil, if_pos hid]
    have hfind : (List.find? (fun x => x.id == alert_id)
        [{ a with
            status := rt
            response_type := some rt
            responded_at := some now }]) =
        some { a with
            status := rt
            response_type := some rt
            responded_at := some now } := by
      apply List.find?_cons_of_pos
      simp only [beq_iff_eq]
      exact hid
    simp only [hfind]
    refine ⟨trivial, ?_⟩
    show (update_firefighter_stats [s] a.firefighter_id rt a.received_at now
        today).map (fun t => t.total_alerts_today) = [s.total_alerts_today + 1]
    unfold update_firefighter_stats ensure_stats_row
    have hany : ([s].any fun t => t.firefighter_id == a.firefighter_id) = true := by
      simp [hff]
    rw [if_pos hany]
    simp only [List.map_cons, List.map_nil, if_pos hff]
    rw [update_stats_row_alerts_today]

/-- Witness for the amended C1: on the concrete database, id 5 matches
nothing and the call is a no-op, while id 1 matches the
already-`responded` record, overwrites it and bumps the stats. -/
theorem respond_lacks_status_guard_witness :
    (∀ a ∈ c1db.firefighter_alerts, a.id ≠ 5) ∧
      respond_to_firefighter_alert 5 "responded" ⟨some 200⟩ "d" c1db = c1db ∧
      (respond_to_firefighter_alert 1 "responded" ⟨some 200⟩ "d"
          c1db).firefighter_alerts =
        [{ c1alert with
            status := "responded"
            response_type := some "responded"
            responded_at := some ⟨some 200⟩ }] ∧
      (respond_to_firefighter_alert 1 "responded" ⟨some 200⟩ "d"
          c1db).firefighter_stats.map (fun t => t.total_alerts_today) =
        [c1stats.total_alerts_today + 1] :=
  ⟨by decide,
   (respond_lacks_status_guard c1db 5 "responded" ⟨some 200⟩ "d").1 (by decide),
   ((respond_lacks_status_guard c1db 1 "responded" ⟨some 200⟩ "d").2 c1alert
     c1stats rfl rfl rfl).1,
   ((respond_lacks_status_guard c1db 1 "responded" ⟨some 200⟩ "d").2 c1alert
     c1stats rfl rfl rfl).2⟩
